import Mathlib

/-!
Verification of `render_integration.py`: an HTTP shim exposing two FastAPI
endpoints, `rig_from_url_api` (`POST /api/rig-from-url`) and
`animate_from_url_api` (`POST /api/animate-from-url`).  Each handler parses a
JSON body, downloads the referenced model file, runs an injected pipeline
function that populates a fresh `DB` record, selects an output path from the
record, uploads it to a fixed backend, and returns a status payload.

The embedding is a shallow one: every external effect (request-body parsing,
the streamed download, `os.path.isfile`, the pipeline generator, the upload
POST) is an oracle stored in a `World` record, each fallible one returning
`Except String` where the Python call may raise (the `String` is `str(e)`).
The handler becomes a pure function `World → ApiResponse × Trace`, where the
`Trace` records the network calls and pipeline invocations the handler has
performed, in order to state "no network call is attempted" properties.
-/

/-- A JSON value as far as the handlers inspect one: the `"url"` field of the
request body is either JSON `null` or a string (any other JSON type would be
handled by Python truthiness exactly like these; the claims only mention null
and strings). -/
inductive JsonValue where
  | null
  | str (s : String)
  deriving DecidableEq, Repr

/-- The parsed request body as the handlers see it: `data.get("url")` yields
the field's value, or `None` when the field is absent (modelled `none`). -/
structure RequestBody where
  url : Option JsonValue
  deriving DecidableEq, Repr

/-- Python truthiness of `data.get("url")`: `None` (absent field), JSON
`null` and the empty string are falsy; a nonempty string is truthy. -/
def jsonTruthy : Option JsonValue → Bool
  | none => false
  | some .null => false
  | some (.str s) => !(s == "")

/-- Extract the string value of the `"url"` field (only used on the truthy
branch, where the value is a nonempty string). -/
def jsonStr : Option JsonValue → String
  | some (.str s) => s
  | _ => ""

/-- Python truthiness of an optional path string (`db.anim_vis_path`,
`result.get("persistentUrl")`): `None` and `""` are falsy. -/
def strTruthy : Option String → Bool
  | none => false
  | some s => !(s == "")

/-- The result record (`DB_class()`): `db = DB_class()` constructs it fresh
per request; the pipeline populates `anim_vis_path` (the `.glb` preview
output) and `anim_path` (the native `.fbx` output) as side effects.  Both
start unset. -/
structure DB where
  anim_vis_path : Option String := none
  anim_path : Option String := none
  deriving DecidableEq, Repr

/-- The named configuration arguments both handlers pass to the injected
`pipeline_function` (lines 86-103 and 188-205 of `render_integration.py`);
`db` is passed separately.  `opacity_threshold` is the literal `0.01`,
modelled as the rational `1/100`. -/
structure PipelineArgs where
  input_path : String
  is_gs : Bool
  opacity_threshold : Rat
  no_fingers : Bool
  rest_pose_type : String
  ignore_pose_parts : List String
  input_normal : Bool
  bw_fix : Bool
  bw_vis_bone : String
  reset_to_rest : Bool
  animation_file : Option String
  retarget : Bool
  inplace : Bool
  export_temp : Bool
  original_filename : String
  deriving DecidableEq, Repr

/-- The JSON object of the upload response, as far as the handlers read it:
`result.get("persistentUrl")`. -/
structure UploadResult where
  persistentUrl : Option String
  deriving DecidableEq, Repr

/-- Equality of `Except` outcomes is decidable when it is on both sides. -/
instance {ε α : Type} [DecidableEq ε] [DecidableEq α] :
    DecidableEq (Except ε α)
  | .error a, .error b =>
    if h : a = b then .isTrue (congrArg Except.error h)
    else .isFalse (fun hh => h (Except.error.inj hh))
  | .error _, .ok _ => .isFalse Except.noConfusion
  | .ok _, .error _ => .isFalse Except.noConfusion
  | .ok a, .ok b =>
    if h : a = b then .isTrue (congrArg Except.ok h)
    else .isFalse (fun hh => h (Except.ok.inj hh))

/-- The response object of the upload POST: `status_code`, `text` (only
logged), and `response.json()` which may itself raise. -/
structure UploadResponse where
  status_code : Nat
  text : String
  json : Except String UploadResult
  deriving DecidableEq, Repr

/-- The trace of externally visible calls a handler has made: URLs fetched by
`requests.get` (the model download), invocations of the injected
`pipeline_function` (with the named arguments and the `db` record passed),
and file paths sent by `requests.post` (the upload). -/
structure Trace where
  downloads : List String := []
  pipelineCalls : List (PipelineArgs × DB) := []
  uploads : List String := []
  deriving DecidableEq, Repr

/-- The environment a request runs in.  Each fallible external effect is an
oracle returning `Except String`; `.error m` models the Python call raising
an exception `e` with `str(e) = m`.

* `jsonBody` — the outcome of `await request.json()` followed by reading the
  `"url"` field (a parse failure or a non-object body raises).
* `tmpdir` — `tempfile.gettempdir()`.
* `download` — `requests.get(model_url, stream=True)` plus `raise_for_status`
  and writing the chunks to the local file.
* `isfile` — `os.path.isfile`.
* `pipeline` — draining the generator `pipeline_function(...)`: on success,
  the list of yielded intermediate step values (opaque to the shim, modelled
  as naturals) and the final state of the `db` record; `.error` when the
  drain raises.
* `upload` — opening the selected file and POSTing it to the fixed backend
  URL; on success, the response object.
* `animationFilePrimary` / `animationFileFallback` — the two candidate paths
  the animate handler computes for `data/Standard Run.fbx` (they derive from
  `__file__` and the working directory, hence are environment values). -/
structure World where
  jsonBody : Except String RequestBody
  tmpdir : String
  download : String → Except String Unit
  isfile : String → Bool
  pipeline : PipelineArgs → DB → Except String (List Nat × DB)
  upload : String → Except String UploadResponse
  animationFilePrimary : String
  animationFileFallback : String

/-- The payload a handler returns: either
`{"status": "done", "persistentUrl": u}` or
`{"status": "error", "message": m}`. -/
inductive ApiResponse where
  | error (message : String)
  | done (persistentUrl : String)
  deriving DecidableEq, Repr

/-- `model_url.split('/')[-1]`. -/
def lastSegment (s : String) : String := (s.splitOn "/").getLastD ""

/-- `os.path.join(dir, file)` for the shapes occurring here (a directory and
a final URL segment, which contains no slash). -/
def joinPath (dir file : String) : String := dir ++ "/" ++ file

/-- `os.path.join(tempfile.gettempdir(), model_url.split('/')[-1])`
(lines 75 and 167): the local download target. -/
def localFilename (w : World) (model_url : String) : String :=
  joinPath w.tmpdir (lastSegment model_url)

/-- The named arguments of the pipeline call in `rig_from_url_api`
(lines 86-103): `animation_file=None`. -/
def rigPipelineArgs (local_filename model_url : String) : PipelineArgs where
  input_path := local_filename
  is_gs := false
  opacity_threshold := 1/100
  no_fingers := true
  rest_pose_type := "No"
  ignore_pose_parts := []
  input_normal := false
  bw_fix := true
  bw_vis_bone := "LeftArm"
  reset_to_rest := true
  animation_file := none
  retarget := true
  inplace := true
  export_temp := true
  original_filename := model_url

/-- The named arguments of the pipeline call in `animate_from_url_api`
(lines 188-205): identical literals, except
`animation_file=animation_file` (the resolved local animation file). -/
def animatePipelineArgs (local_filename model_url animation_file : String) :
    PipelineArgs where
  input_path := local_filename
  is_gs := false
  opacity_threshold := 1/100
  no_fingers := true
  rest_pose_type := "No"
  ignore_pose_parts := []
  input_normal := false
  bw_fix := true
  bw_vis_bone := "LeftArm"
  reset_to_rest := true
  animation_file := some animation_file
  retarget := true
  inplace := true
  export_temp := true
  original_filename := model_url

/-- The upload block shared verbatim by both handlers (lines 117-136 and
222-243; they differ only in the MIME-type string put inside the multipart
form, which is part of the opaque `upload` oracle here): POST the file at
`path`, check the status code, read `persistentUrl` from the response JSON.
Returns the body's outcome (`Except.error` = an exception propagating to the
handler's top-level `except`) together with the updated trace. -/
def uploadPhase (w : World) (path : String) (t : Trace) :
    Except String ApiResponse × Trace :=
  let t := { t with uploads := t.uploads ++ [path] }
  match w.upload path with
  | .error e => (.error e, t)
  | .ok response =>
    if response.status_code != 200 then
      (.ok (.error ("Upload to Render.com failed with status code " ++
        toString response.status_code)), t)
    else
      match response.json with
      | .error e => (.error e, t)
      | .ok result =>
        let persistent_url := result.persistentUrl
        if !(strTruthy persistent_url) then
          (.ok (.error "No persistent URL returned from Render.com"), t)
        else
          (.ok (.done (persistent_url.getD "")), t)

/-- The body of the `try` block of `rig_from_url_api` (lines 60-136).
`Except.error m` models an exception with text `m` escaping the body into
the top-level `except` handler. -/
def rigBody (w : World) : Except String ApiResponse × Trace :=
  match w.jsonBody with
  | .error e => (.error e, {})
  | .ok data =>
    if !(jsonTruthy data.url) then
      (.ok (.error "Model URL is required"), {})
    else
      let model_url := jsonStr data.url
      let local_filename := localFilename w model_url
      let t : Trace := { downloads := [model_url] }
      match w.download model_url with
      | .error e => (.error e, t)
      | .ok _ =>
        let db : DB := {}
        let args := rigPipelineArgs local_filename model_url
        let t := { t with pipelineCalls := [(args, db)] }
        match w.pipeline args db with
        | .error e => (.error e, t)
        | .ok (_steps, db) =>
          if strTruthy db.anim_vis_path && w.isfile (db.anim_vis_path.getD "") then
            uploadPhase w (db.anim_vis_path.getD "") t
          else if strTruthy db.anim_path && w.isfile (db.anim_path.getD "") then
            uploadPhase w (db.anim_path.getD "") t
          else
            (.ok (.error "Rigging failed: output file not found"), t)

/-- `rig_from_url_api` (lines 50-139): the `try` body with the top-level
`except Exception as e: return {"status": "error", "message": str(e)}`. -/
def rig_from_url_api (w : World) : ApiResponse × Trace :=
  match rigBody w with
  | (.ok r, t) => (r, t)
  | (.error m, t) => (.error m, t)

/-- The body of the `try` block of `animate_from_url_api` (lines 152-243):
like the rig body, plus the resolution of the local reference animation file
(lines 177-183) before the pipeline call, and the nested output selection
(lines 209-219). -/
def animateBody (w : World) : Except String ApiResponse × Trace :=
  match w.jsonBody with
  | .error e => (.error e, {})
  | .ok data =>
    if !(jsonTruthy data.url) then
      (.ok (.error "Model URL is required for animation"), {})
    else
      let model_url := jsonStr data.url
      let local_filename := localFilename w model_url
      let t : Trace := { downloads := [model_url] }
      match w.download model_url with
      | .error e => (.error e, t)
      | .ok _ =>
        let af0 := w.animationFilePrimary
        let af1 := if w.isfile af0 then af0 else w.animationFileFallback
        if !(w.isfile af1) then
          (.ok (.error "Default animation file not found"), t)
        else
          let animation_file := af1
          let db : DB := {}
          let args := animatePipelineArgs local_filename model_url animation_file
          let t := { t with pipelineCalls := [(args, db)] }
          match w.pipeline args db with
          | .error e => (.error e, t)
          | .ok (_steps, db) =>
            if strTruthy db.anim_vis_path && w.isfile (db.anim_vis_path.getD "") then
              uploadPhase w (db.anim_vis_path.getD "") t
            else if strTruthy db.anim_path && w.isfile (db.anim_path.getD "") then
              uploadPhase w (db.anim_path.getD "") t
            else
              (.ok (.error "Animation failed: output file not found"), t)

/-- `animate_from_url_api` (lines 142-246): the `try` body with the
top-level `except`. -/
def animate_from_url_api (w : World) : ApiResponse × Trace :=
  match animateBody w with
  | (.ok r, t) => (r, t)
  | (.error m, t) => (.error m, t)

/-! ## Helper lemmas -/

/-- Whatever the upload oracle returns, the trace of the upload phase is the
incoming trace with the selected path appended to `uploads`. -/
theorem uploadPhase_trace (w : World) (path : String) (t : Trace) :
    (uploadPhase w path t).2 = { t with uploads := t.uploads ++ [path] } := by
  unfold uploadPhase
  rcases w.upload path with e | r
  · rfl
  · dsimp only
    split
    · rfl
    · rcases r.json with e | res
      · rfl
      · dsimp only
        split <;> rfl

/-- The top-level `except` does not change the trace. -/
theorem rig_trace_eq (w : World) : (rig_from_url_api w).2 = (rigBody w).2 := by
  unfold rig_from_url_api
  rcases h : rigBody w with ⟨r, t⟩
  cases r <;> rfl

/-- The top-level `except` does not change the trace. -/
theorem animate_trace_eq (w : World) :
    (animate_from_url_api w).2 = (animateBody w).2 := by
  unfold animate_from_url_api
  rcases h : animateBody w with ⟨r, t⟩
  cases r <;> rfl

/-! ## Concrete worlds for witnesses -/

/-- A request environment in which everything succeeds: a valid body, a
download that works, a pipeline that fills in both output paths with files
that exist, an animation reference file at the primary path, and an upload
that returns 200 with a persistent URL. -/
def baseWorld : World where
  jsonBody := .ok { url := some (.str "http://h/m.fbx") }
  tmpdir := "/tmp"
  download := fun _ => .ok ()
  isfile := fun p => p == "/out/v.glb" || p == "/out/a.fbx" || p == "/anim/run.fbx"
  pipeline := fun _ _ =>
    .ok ([7], { anim_vis_path := some "/out/v.glb", anim_path := some "/out/a.fbx" })
  upload := fun _ =>
    .ok { status_code := 200, text := "",
          json := .ok { persistentUrl := some "https://cdn/p.glb" } }
  animationFilePrimary := "/anim/run.fbx"
  animationFileFallback := "/anim/fb.fbx"

/-! ## Claims -/

/-- C2: for every exception raised anywhere in the body of either handler
(JSON parsing, download, transformation, upload, ...), the handler catches
it at the top level and returns the error payload carrying the exception's
text; the exception never escapes the handler (the handler is a total
function into `ApiResponse × Trace`). -/
theorem handler_catches_all_exceptions (w w' : World) (m m' : String)
    (t t' : Trace)
    (h : rigBody w = (.error m, t)) (h' : animateBody w' = (.error m', t')) :
    rig_from_url_api w = (.error m, t) ∧
    animate_from_url_api w' = (.error m', t') := by
  refine ⟨?_, ?_⟩ <;> simp [rig_from_url_api, animate_from_url_api, h, h']

/-- Witness for C2: a request whose JSON body fails to parse (the oracle
raises with text "boom") yields the error payload "boom" from both
handlers. -/
theorem handler_catches_all_exceptions_witness :
    rig_from_url_api { baseWorld with jsonBody := .error "boom" } =
      (.error "boom", {}) ∧
    animate_from_url_api { baseWorld with jsonBody := .error "boom" } =
      (.error "boom", {}) :=
  handler_catches_all_exceptions
    { baseWorld with jsonBody := .error "boom" }
    { baseWorld with jsonBody := .error "boom" }
    "boom" "boom" {} {} rfl rfl

/-- C3: a request whose JSON body has no "url" field is answered with the
missing-input error payload and an empty trace: no download, no pipeline
call, no upload. -/
theorem missing_url_fails_fast (w w' : World) (data data' : RequestBody)
    (h : w.jsonBody = .ok data) (hu : data.url = none)
    (h' : w'.jsonBody = .ok data') (hu' : data'.url = none) :
    rig_from_url_api w = (.error "Model URL is required", {}) ∧
    animate_from_url_api w' =
      (.error "Model URL is required for animation", {}) := by
  constructor
  · simp [rig_from_url_api, rigBody, h, hu, jsonTruthy]
  · simp [animate_from_url_api, animateBody, h', hu', jsonTruthy]

/-- Witness for C3 at a concrete body with no "url" field. -/
theorem missing_url_fails_fast_witness :
    rig_from_url_api { baseWorld with jsonBody := .ok { url := none } } =
      (.error "Model URL is required", {}) ∧
    animate_from_url_api { baseWorld with jsonBody := .ok { url := none } } =
      (.error "Model URL is required for animation", {}) :=
  missing_url_fails_fast
    { baseWorld with jsonBody := .ok { url := none } }
    { baseWorld with jsonBody := .ok { url := none } }
    { url := none } { url := none } rfl rfl rfl rfl

/-- C9: the animate endpoint requires the fixed local reference-animation
file: when neither candidate path exists, it returns an error payload after
the download but before invoking the transformation (the trace shows no
pipeline call and no upload).  The rig endpoint imposes no such requirement:
its outcome is invariant under changing the two animation-file paths. -/
theorem animation_file_requirement (w w' : World) (data : RequestBody)
    (p q : String)
    (h1 : w.jsonBody = .ok data) (h2 : jsonTruthy data.url = true)
    (h3 : w.download (jsonStr data.url) = .ok ())
    (h4 : w.isfile w.animationFilePrimary = false)
    (h5 : w.isfile w.animationFileFallback = false) :
    animate_from_url_api w =
      (.error "Default animation file not found",
        { downloads := [jsonStr data.url] }) ∧
    rig_from_url_api
        { w' with animationFilePrimary := p, animationFileFallback := q } =
      rig_from_url_api w' := by
  constructor
  · simp [animate_from_url_api, animateBody, h1, h2, h3, h4, h5]
  · rfl

/-- Witness for C9: a world where neither animation-file path exists. -/
theorem animation_file_requirement_witness :
    animate_from_url_api { baseWorld with isfile := fun _ => false } =
      (.error "Default animation file not found",
        { downloads := ["http://h/m.fbx"] }) ∧
    rig_from_url_api
        { baseWorld with animationFilePrimary := "x", animationFileFallback := "y" } =
      rig_from_url_api baseWorld :=
  animation_file_requirement
    { baseWorld with isfile := fun _ => false } baseWorld
    { url := some (.str "http://h/m.fbx") } "x" "y"
    rfl (by decide) rfl rfl rfl

/-- C10: a request whose "url" field is present but falsy (JSON null or the
empty string) is treated exactly like an absent field: the same
missing-input error payload, with an empty trace (no network call). -/
theorem falsy_url_treated_as_missing (w w' : World) (data data' : RequestBody)
    (h : w.jsonBody = .ok data)
    (hu : data.url = some .null ∨ data.url = some (.str ""))
    (h' : w'.jsonBody = .ok data')
    (hu' : data'.url = some .null ∨ data'.url = some (.str "")) :
    rig_from_url_api w = (.error "Model URL is required", {}) ∧
    animate_from_url_api w' =
      (.error "Model URL is required for animation", {}) := by
  constructor
  · rcases hu with hu | hu <;>
      simp [rig_from_url_api, rigBody, h, hu, jsonTruthy]
  · rcases hu' with hu' | hu' <;>
      simp [animate_from_url_api, animateBody, h', hu', jsonTruthy]

/-- Witness for C10: "url" set to the empty string on the rig endpoint and
to JSON null on the animate endpoint. -/
theorem falsy_url_treated_as_missing_witness :
    rig_from_url_api
        { baseWorld with jsonBody := .ok { url := some (.str "") } } =
      (.error "Model URL is required", {}) ∧
    animate_from_url_api
        { baseWorld with jsonBody := .ok { url := some .null } } =
      (.error "Model URL is required for animation", {}) :=
  falsy_url_treated_as_missing
    { baseWorld with jsonBody := .ok { url := some (.str "") } }
    { baseWorld with jsonBody := .ok { url := some .null } }
    { url := some (.str "") } { url := some .null }
    rfl (Or.inr rfl) rfl (Or.inl rfl)

/-- If the `try` body completes normally, the handler returns its value. -/
theorem rig_of_body (w : World) (r : ApiResponse) (t : Trace)
    (h : rigBody w = (.ok r, t)) : rig_from_url_api w = (r, t) := by
  simp [rig_from_url_api, h]

/-- If the `try` body completes normally, the handler returns its value. -/
theorem animate_of_body (w : World) (r : ApiResponse) (t : Trace)
    (h : animateBody w = (.ok r, t)) : animate_from_url_api w = (r, t) := by
  simp [animate_from_url_api, h]

/-- The trace accumulated by the rig handler once the pipeline call has been
made: one download, one pipeline invocation on a fresh record, no upload
yet. -/
def rigSelTrace (w : World) (u : String) : Trace :=
  { downloads := [u], pipelineCalls := [(rigPipelineArgs (localFilename w u) u, {})] }

/-- The trace accumulated by the animate handler once the pipeline call has
been made. -/
def animSelTrace (w : World) (u af : String) : Trace :=
  { downloads := [u], pipelineCalls := [(animatePipelineArgs (localFilename w u) u af, {})] }

/-- Reduction of the rig body when the request parses with a truthy URL, the
download succeeds, and the pipeline drain completes with final record `dbf`:
what remains is the output-selection step. -/
theorem rigBody_selection (w : World) (u : String) (steps : List Nat) (dbf : DB)
    (h1 : w.jsonBody = .ok { url := some (.str u) }) (h2 : u ≠ "")
    (h3 : w.download u = .ok ())
    (h4 : w.pipeline (rigPipelineArgs (localFilename w u) u) {} = .ok (steps, dbf)) :
    rigBody w =
      (if strTruthy dbf.anim_vis_path && w.isfile (dbf.anim_vis_path.getD "") then
        uploadPhase w (dbf.anim_vis_path.getD "") (rigSelTrace w u)
      else if strTruthy dbf.anim_path && w.isfile (dbf.anim_path.getD "") then
        uploadPhase w (dbf.anim_path.getD "") (rigSelTrace w u)
      else
        (.ok (.error "Rigging failed: output file not found"), rigSelTrace w u)) := by
  simp [rigBody, h1, h2, h3, h4, jsonTruthy, jsonStr, rigSelTrace]

/-- Reduction of the animate body in the same situation, with the resolved
animation reference file `af` existing. -/
theorem animateBody_selection (w : World) (u : String) (steps : List Nat)
    (dbf : DB) (af : String)
    (h1 : w.jsonBody = .ok { url := some (.str u) }) (h2 : u ≠ "")
    (h3 : w.download u = .ok ())
    (haf : (if w.isfile w.animationFilePrimary then w.animationFilePrimary
      else w.animationFileFallback) = af)
    (haf2 : w.isfile af = true)
    (h4 : w.pipeline (animatePipelineArgs (localFilename w u) u af) {} = .ok (steps, dbf)) :
    animateBody w =
      (if strTruthy dbf.anim_vis_path && w.isfile (dbf.anim_vis_path.getD "") then
        uploadPhase w (dbf.anim_vis_path.getD "") (animSelTrace w u af)
      else if strTruthy dbf.anim_path && w.isfile (dbf.anim_path.getD "") then
        uploadPhase w (dbf.anim_path.getD "") (animSelTrace w u af)
      else
        (.ok (.error "Animation failed: output file not found"), animSelTrace w u af)) := by
  simp [animateBody, h1, h2, h3, haf, haf2, h4, jsonTruthy, jsonStr, animSelTrace]

/-- C4: when the transformation's result record has neither the preview path
nor the native path naming an existing file, each handler returns the
no-output error payload and attempts no upload at all (the trace shows an
empty upload list). -/
theorem no_output_yields_error_without_upload
    (w w' : World) (u u' : String) (steps steps' : List Nat)
    (db1 db2 : DB) (af : String)
    (h1 : w.jsonBody = .ok { url := some (.str u) }) (h2 : u ≠ "")
    (h3 : w.download u = .ok ())
    (h4 : w.pipeline (rigPipelineArgs (localFilename w u) u) {} = .ok (steps, db1))
    (h5 : (strTruthy db1.anim_vis_path && w.isfile (db1.anim_vis_path.getD "")) = false)
    (h6 : (strTruthy db1.anim_path && w.isfile (db1.anim_path.getD "")) = false)
    (g1 : w'.jsonBody = .ok { url := some (.str u') }) (g2 : u' ≠ "")
    (g3 : w'.download u' = .ok ())
    (gaf : (if w'.isfile w'.animationFilePrimary then w'.animationFilePrimary
      else w'.animationFileFallback) = af)
    (gaf2 : w'.isfile af = true)
    (g4 : w'.pipeline (animatePipelineArgs (localFilename w' u') u' af) {} = .ok (steps', db2))
    (g5 : (strTruthy db2.anim_vis_path && w'.isfile (db2.anim_vis_path.getD "")) = false)
    (g6 : (strTruthy db2.anim_path && w'.isfile (db2.anim_path.getD "")) = false) :
    rig_from_url_api w = (.error "Rigging failed: output file not found", rigSelTrace w u) ∧
    (rigSelTrace w u).uploads = [] ∧
    animate_from_url_api w' = (.error "Animation failed: output file not found", animSelTrace w' u' af) ∧
    (animSelTrace w' u' af).uploads = [] := by
  refine ⟨rig_of_body _ _ _ ?_, rfl, animate_of_body _ _ _ ?_, rfl⟩
  · rw [rigBody_selection w u steps db1 h1 h2 h3 h4]
    simp [h5, h6]
  · rw [animateBody_selection w' u' steps' db2 af g1 g2 g3 gaf gaf2 g4]
    simp [g5, g6]

/-- A pipeline oracle that reports success but leaves no output on disk:
`anim_vis_path` points at a file that does not exist and `anim_path` is
unset. -/
def noOutputWorld : World :=
  { baseWorld with pipeline := fun _ _ => .ok ([], { anim_vis_path := some "/missing.glb", anim_path := none }) }

/-- Witness for C4 at a concrete world whose pipeline leaves no output. -/
theorem no_output_yields_error_without_upload_witness :
    rig_from_url_api noOutputWorld =
      (.error "Rigging failed: output file not found", rigSelTrace noOutputWorld "http://h/m.fbx") ∧
    (rigSelTrace noOutputWorld "http://h/m.fbx").uploads = [] ∧
    animate_from_url_api noOutputWorld =
      (.error "Animation failed: output file not found", animSelTrace noOutputWorld "http://h/m.fbx" "/anim/run.fbx") ∧
    (animSelTrace noOutputWorld "http://h/m.fbx" "/anim/run.fbx").uploads = [] :=
  no_output_yields_error_without_upload noOutputWorld noOutputWorld
    "http://h/m.fbx" "http://h/m.fbx" [] []
    { anim_vis_path := some "/missing.glb", anim_path := none }
    { anim_vis_path := some "/missing.glb", anim_path := none } "/anim/run.fbx"
    (by rfl) (by decide) (by rfl) (by rfl) (by decide) (by decide)
    (by rfl) (by decide) (by rfl) (by decide) (by decide) (by rfl)
    (by decide) (by decide)

/-- C1: when the result record has both `anim_vis_path` and `anim_path` set
and both name existing files, each handler uploads exactly the preview
(`anim_vis_path`) file and never the native (`anim_path`) one. -/
theorem rig_animate_prefer_preview_output
    (w w' : World) (u u' : String) (steps steps' : List Nat) (db1 db2 : DB)
    (vp ap vp' ap' af : String)
    (h1 : w.jsonBody = .ok { url := some (.str u) }) (h2 : u ≠ "")
    (h3 : w.download u = .ok ())
    (h4 : w.pipeline (rigPipelineArgs (localFilename w u) u) {} = .ok (steps, db1))
    (h5 : db1.anim_vis_path = some vp) (h6 : vp ≠ "") (h7 : w.isfile vp = true)
    (h8 : db1.anim_path = some ap) (h9 : w.isfile ap = true)
    (g1 : w'.jsonBody = .ok { url := some (.str u') }) (g2 : u' ≠ "")
    (g3 : w'.download u' = .ok ())
    (gaf : (if w'.isfile w'.animationFilePrimary then w'.animationFilePrimary
      else w'.animationFileFallback) = af)
    (gaf2 : w'.isfile af = true)
    (g4 : w'.pipeline (animatePipelineArgs (localFilename w' u') u' af) {} = .ok (steps', db2))
    (g5 : db2.anim_vis_path = some vp') (g6 : vp' ≠ "") (g7 : w'.isfile vp' = true)
    (g8 : db2.anim_path = some ap') (g9 : w'.isfile ap' = true) :
    (rig_from_url_api w).2.uploads = [vp] ∧
    (ap ≠ vp → ap ∉ (rig_from_url_api w).2.uploads) ∧
    (animate_from_url_api w').2.uploads = [vp'] ∧
    (ap' ≠ vp' → ap' ∉ (animate_from_url_api w').2.uploads) := by
  have e1 : (rig_from_url_api w).2.uploads = [vp] := by
    rw [rig_trace_eq, rigBody_selection w u steps db1 h1 h2 h3 h4]
    simp [h5, h6, h7, strTruthy, uploadPhase_trace, rigSelTrace]
  have e2 : (animate_from_url_api w').2.uploads = [vp'] := by
    rw [animate_trace_eq, animateBody_selection w' u' steps' db2 af g1 g2 g3 gaf gaf2 g4]
    simp [g5, g6, g7, strTruthy, uploadPhase_trace, animSelTrace]
  refine ⟨e1, fun hne => ?_, e2, fun hne' => ?_⟩
  · rw [e1]; simp [hne]
  · rw [e2]; simp [hne']

/-- Witness for C1: in `baseWorld` both output files exist; both handlers
upload only `/out/v.glb`, never `/out/a.fbx`. -/
theorem rig_animate_prefer_preview_output_witness :
    (rig_from_url_api baseWorld).2.uploads = ["/out/v.glb"] ∧
    ("/out/a.fbx" ≠ "/out/v.glb" → "/out/a.fbx" ∉ (rig_from_url_api baseWorld).2.uploads) ∧
    (animate_from_url_api baseWorld).2.uploads = ["/out/v.glb"] ∧
    ("/out/a.fbx" ≠ "/out/v.glb" → "/out/a.fbx" ∉ (animate_from_url_api baseWorld).2.uploads) :=
  rig_animate_prefer_preview_output baseWorld baseWorld
    "http://h/m.fbx" "http://h/m.fbx" [7] [7]
    { anim_vis_path := some "/out/v.glb", anim_path := some "/out/a.fbx" }
    { anim_vis_path := some "/out/v.glb", anim_path := some "/out/a.fbx" }
    "/out/v.glb" "/out/a.fbx" "/out/v.glb" "/out/a.fbx" "/anim/run.fbx"
    (by rfl) (by decide) (by rfl) (by rfl) (by rfl) (by decide) (by decide)
    (by rfl) (by decide)
    (by rfl) (by decide) (by rfl) (by decide) (by decide) (by rfl)
    (by rfl) (by decide) (by decide) (by rfl) (by decide)

/-- C7: when only the native output path (`anim_path`) names an existing
file (the preview path is unset, empty, or not on disk), each handler
selects that native path, proceeds to the upload step with it, and returns
the success payload when the upload succeeds. -/
theorem native_output_fallback_succeeds
    (w w' : World) (u u' : String) (steps steps' : List Nat) (db1 db2 : DB)
    (ap ap' af pu pu' : String) (resp resp' : UploadResponse)
    (h1 : w.jsonBody = .ok { url := some (.str u) }) (h2 : u ≠ "")
    (h3 : w.download u = .ok ())
    (h4 : w.pipeline (rigPipelineArgs (localFilename w u) u) {} = .ok (steps, db1))
    (h5 : (strTruthy db1.anim_vis_path && w.isfile (db1.anim_vis_path.getD "")) = false)
    (h6 : db1.anim_path = some ap) (h7 : ap ≠ "") (h8 : w.isfile ap = true)
    (h9 : w.upload ap = .ok resp) (h10 : resp.status_code = 200)
    (h11 : resp.json = .ok { persistentUrl := some pu }) (h12 : pu ≠ "")
    (g1 : w'.jsonBody = .ok { url := some (.str u') }) (g2 : u' ≠ "")
    (g3 : w'.download u' = .ok ())
    (gaf : (if w'.isfile w'.animationFilePrimary then w'.animationFilePrimary
      else w'.animationFileFallback) = af)
    (gaf2 : w'.isfile af = true)
    (g4 : w'.pipeline (animatePipelineArgs (localFilename w' u') u' af) {} = .ok (steps', db2))
    (g5 : (strTruthy db2.anim_vis_path && w'.isfile (db2.anim_vis_path.getD "")) = false)
    (g6 : db2.anim_path = some ap') (g7 : ap' ≠ "") (g8 : w'.isfile ap' = true)
    (g9 : w'.upload ap' = .ok resp') (g10 : resp'.status_code = 200)
    (g11 : resp'.json = .ok { persistentUrl := some pu' }) (g12 : pu' ≠ "") :
    rig_from_url_api w = (.done pu, { rigSelTrace w u with uploads := [ap] }) ∧
    animate_from_url_api w' = (.done pu', { animSelTrace w' u' af with uploads := [ap'] }) := by
  refine ⟨rig_of_body _ _ _ ?_, animate_of_body _ _ _ ?_⟩
  · rw [rigBody_selection w u steps db1 h1 h2 h3 h4]
    rw [if_neg (by simp [h5]), if_pos (by simp [strTruthy, h6, h7, h8])]
    simp only [h6, Option.getD_some]
    simp [uploadPhase, h9, h10, h11, strTruthy, h12, rigSelTrace]
  · rw [animateBody_selection w' u' steps' db2 af g1 g2 g3 gaf gaf2 g4]
    rw [if_neg (by simp [g5]), if_pos (by simp [strTruthy, g6, g7, g8])]
    simp only [g6, Option.getD_some]
    simp [uploadPhase, g9, g10, g11, strTruthy, g12, animSelTrace]

/-- A pipeline oracle whose only on-disk output is the native `.fbx`:
`anim_vis_path` is unset. -/
def fbxOnlyWorld : World :=
  { baseWorld with pipeline := fun _ _ => .ok ([], { anim_vis_path := none, anim_path := some "/out/a.fbx" }) }

/-- Witness for C7 at a concrete world whose pipeline produces only the
native output. -/
theorem native_output_fallback_succeeds_witness :
    rig_from_url_api fbxOnlyWorld =
      (.done "https://cdn/p.glb", { rigSelTrace fbxOnlyWorld "http://h/m.fbx" with uploads := ["/out/a.fbx"] }) ∧
    animate_from_url_api fbxOnlyWorld =
      (.done "https://cdn/p.glb", { animSelTrace fbxOnlyWorld "http://h/m.fbx" "/anim/run.fbx" with uploads := ["/out/a.fbx"] }) :=
  native_output_fallback_succeeds fbxOnlyWorld fbxOnlyWorld
    "http://h/m.fbx" "http://h/m.fbx" [] []
    { anim_vis_path := none, anim_path := some "/out/a.fbx" }
    { anim_vis_path := none, anim_path := some "/out/a.fbx" }
    "/out/a.fbx" "/out/a.fbx" "/anim/run.fbx" "https://cdn/p.glb" "https://cdn/p.glb"
    { status_code := 200, text := "", json := .ok { persistentUrl := some "https://cdn/p.glb" } }
    { status_code := 200, text := "", json := .ok { persistentUrl := some "https://cdn/p.glb" } }
    (by rfl) (by decide) (by rfl) (by rfl) (by decide) (by rfl) (by decide)
    (by decide) (by rfl) (by rfl) (by rfl) (by decide)
    (by rfl) (by decide) (by rfl) (by decide) (by decide) (by rfl) (by decide)
    (by rfl) (by decide) (by decide) (by rfl) (by rfl) (by rfl) (by decide)

/-- The output-selection step both handlers perform on the final record
(lines 107-115 and 209-219): prefer a truthy `anim_vis_path` naming an
existing file, fall back to a truthy `anim_path` naming an existing file,
otherwise nothing. -/
def selectOutput (isfile : String → Bool) (dbf : DB) : Option String :=
  if strTruthy dbf.anim_vis_path && isfile (dbf.anim_vis_path.getD "") then
    some (dbf.anim_vis_path.getD "")
  else if strTruthy dbf.anim_path && isfile (dbf.anim_path.getD "") then
    some (dbf.anim_path.getD "")
  else none

/-- Whenever the selection step chooses a path `p` — the preview output or
the native fallback alike — the rig body proceeds to the upload phase with
`p`. -/
theorem rigBody_upload (w : World) (u : String) (steps : List Nat) (dbf : DB)
    (p : String)
    (h1 : w.jsonBody = .ok { url := some (.str u) }) (h2 : u ≠ "")
    (h3 : w.download u = .ok ())
    (h4 : w.pipeline (rigPipelineArgs (localFilename w u) u) {} = .ok (steps, dbf))
    (hsel : selectOutput w.isfile dbf = some p) :
    rigBody w = uploadPhase w p (rigSelTrace w u) := by
  rw [rigBody_selection w u steps dbf h1 h2 h3 h4]
  unfold selectOutput at hsel
  split at hsel
  next hcond =>
    rw [if_pos hcond]
    injection hsel with hp
    rw [hp]
  next hcond =>
    rw [if_neg hcond]
    split at hsel
    next hcond2 =>
      rw [if_pos hcond2]
      injection hsel with hp
      rw [hp]
    next =>
      exact Option.noConfusion hsel

/-- Whenever the selection step chooses a path `p`, the animate body
proceeds to the upload phase with `p`. -/
theorem animateBody_upload (w : World) (u : String) (steps : List Nat)
    (dbf : DB) (af p : String)
    (h1 : w.jsonBody = .ok { url := some (.str u) }) (h2 : u ≠ "")
    (h3 : w.download u = .ok ())
    (haf : (if w.isfile w.animationFilePrimary then w.animationFilePrimary
      else w.animationFileFallback) = af)
    (haf2 : w.isfile af = true)
    (h4 : w.pipeline (animatePipelineArgs (localFilename w u) u af) {} = .ok (steps, dbf))
    (hsel : selectOutput w.isfile dbf = some p) :
    animateBody w = uploadPhase w p (animSelTrace w u af) := by
  rw [animateBody_selection w u steps dbf af h1 h2 h3 haf haf2 h4]
  unfold selectOutput at hsel
  split at hsel
  next hcond =>
    rw [if_pos hcond]
    injection hsel with hp
    rw [hp]
  next hcond =>
    rw [if_neg hcond]
    split at hsel
    next hcond2 =>
      rw [if_pos hcond2]
      injection hsel with hp
      rw [hp]
    next =>
      exact Option.noConfusion hsel

/-- C5: when the upload POST returns a response whose status code is not
200 — whichever output path (preview or native fallback) the selection step
chose — each handler returns an error payload whose message contains that
status code (the fixed prefix followed by the code's decimal rendering). -/
theorem upload_non200_error_contains_status
    (w w' : World) (u u' : String) (steps steps' : List Nat) (db1 db2 : DB)
    (p p' af : String) (resp resp' : UploadResponse)
    (h1 : w.jsonBody = .ok { url := some (.str u) }) (h2 : u ≠ "")
    (h3 : w.download u = .ok ())
    (h4 : w.pipeline (rigPipelineArgs (localFilename w u) u) {} = .ok (steps, db1))
    (h5 : selectOutput w.isfile db1 = some p)
    (h6 : w.upload p = .ok resp) (h7 : resp.status_code ≠ 200)
    (g1 : w'.jsonBody = .ok { url := some (.str u') }) (g2 : u' ≠ "")
    (g3 : w'.download u' = .ok ())
    (gaf : (if w'.isfile w'.animationFilePrimary then w'.animationFilePrimary
      else w'.animationFileFallback) = af)
    (gaf2 : w'.isfile af = true)
    (g4 : w'.pipeline (animatePipelineArgs (localFilename w' u') u' af) {} = .ok (steps', db2))
    (g5 : selectOutput w'.isfile db2 = some p')
    (g6 : w'.upload p' = .ok resp') (g7 : resp'.status_code ≠ 200) :
    rig_from_url_api w =
      (.error ("Upload to Render.com failed with status code " ++ toString resp.status_code),
        { rigSelTrace w u with uploads := [p] }) ∧
    animate_from_url_api w' =
      (.error ("Upload to Render.com failed with status code " ++ toString resp'.status_code),
        { animSelTrace w' u' af with uploads := [p'] }) := by
  refine ⟨rig_of_body _ _ _ ?_, animate_of_body _ _ _ ?_⟩
  · rw [rigBody_upload w u steps db1 p h1 h2 h3 h4 h5]
    simp [uploadPhase, h6, h7, rigSelTrace]
  · rw [animateBody_upload w' u' steps' db2 af p' g1 g2 g3 gaf gaf2 g4 g5]
    simp [uploadPhase, g6, g7, animSelTrace]

/-- An upload backend that replies 500. -/
def badGatewayWorld : World :=
  { baseWorld with upload := fun _ => .ok { status_code := 500, text := "oops", json := .ok { persistentUrl := none } } }

/-- `fbxOnlyWorld` with an upload backend that replies 500: the request
reaches the upload through the native fallback. -/
def fbxOnlyBadGatewayWorld : World :=
  { fbxOnlyWorld with upload := fun _ => .ok { status_code := 500, text := "oops", json := .ok { persistentUrl := none } } }

/-- Witness for C5: a 500 reply on the rig endpoint with the preview path
selected, and on the animate endpoint with the native fallback selected. -/
theorem upload_non200_error_contains_status_witness :
    rig_from_url_api badGatewayWorld =
      (.error ("Upload to Render.com failed with status code " ++ toString (500 : Nat)),
        { rigSelTrace badGatewayWorld "http://h/m.fbx" with uploads := ["/out/v.glb"] }) ∧
    animate_from_url_api fbxOnlyBadGatewayWorld =
      (.error ("Upload to Render.com failed with status code " ++ toString (500 : Nat)),
        { animSelTrace fbxOnlyBadGatewayWorld "http://h/m.fbx" "/anim/run.fbx" with uploads := ["/out/a.fbx"] }) :=
  upload_non200_error_contains_status badGatewayWorld fbxOnlyBadGatewayWorld
    "http://h/m.fbx" "http://h/m.fbx" [7] []
    { anim_vis_path := some "/out/v.glb", anim_path := some "/out/a.fbx" }
    { anim_vis_path := none, anim_path := some "/out/a.fbx" }
    "/out/v.glb" "/out/a.fbx" "/anim/run.fbx"
    { status_code := 500, text := "oops", json := .ok { persistentUrl := none } }
    { status_code := 500, text := "oops", json := .ok { persistentUrl := none } }
    (by rfl) (by decide) (by rfl) (by rfl) (by decide) (by rfl) (by decide)
    (by rfl) (by decide) (by rfl) (by decide) (by decide) (by rfl)
    (by decide) (by rfl) (by decide)

/-- C6: when the upload POST returns status 200 — whichever output path the
selection step chose — each handler inspects the response JSON's
`persistentUrl` field: if it is absent or falsy the handler returns the
no-persistent-URL error payload; otherwise it returns the success payload
`{"status": "done", "persistentUrl": <that URL>}`. -/
theorem upload_persistent_url_handling
    (w w' : World) (u u' : String) (steps steps' : List Nat) (db1 db2 : DB)
    (p p' af : String) (resp resp' : UploadResponse) (jr jr' : UploadResult)
    (h1 : w.jsonBody = .ok { url := some (.str u) }) (h2 : u ≠ "")
    (h3 : w.download u = .ok ())
    (h4 : w.pipeline (rigPipelineArgs (localFilename w u) u) {} = .ok (steps, db1))
    (h5 : selectOutput w.isfile db1 = some p)
    (h6 : w.upload p = .ok resp) (h7 : resp.status_code = 200)
    (h8 : resp.json = .ok jr)
    (g1 : w'.jsonBody = .ok { url := some (.str u') }) (g2 : u' ≠ "")
    (g3 : w'.download u' = .ok ())
    (gaf : (if w'.isfile w'.animationFilePrimary then w'.animationFilePrimary
      else w'.animationFileFallback) = af)
    (gaf2 : w'.isfile af = true)
    (g4 : w'.pipeline (animatePipelineArgs (localFilename w' u') u' af) {} = .ok (steps', db2))
    (g5 : selectOutput w'.isfile db2 = some p')
    (g6 : w'.upload p' = .ok resp') (g7 : resp'.status_code = 200)
    (g8 : resp'.json = .ok jr') :
    (strTruthy jr.persistentUrl = false →
      rig_from_url_api w = (.error "No persistent URL returned from Render.com",
        { rigSelTrace w u with uploads := [p] })) ∧
    (∀ pu, jr.persistentUrl = some pu → pu ≠ "" →
      rig_from_url_api w = (.done pu, { rigSelTrace w u with uploads := [p] })) ∧
    (strTruthy jr'.persistentUrl = false →
      animate_from_url_api w' = (.error "No persistent URL returned from Render.com",
        { animSelTrace w' u' af with uploads := [p'] })) ∧
    (∀ pu, jr'.persistentUrl = some pu → pu ≠ "" →
      animate_from_url_api w' = (.done pu, { animSelTrace w' u' af with uploads := [p'] })) := by
  refine ⟨fun hmiss => rig_of_body _ _ _ ?_, fun pu hpu hpu2 => rig_of_body _ _ _ ?_,
    fun hmiss' => animate_of_body _ _ _ ?_, fun pu' hpu' hpu2' => animate_of_body _ _ _ ?_⟩
  · rw [rigBody_upload w u steps db1 p h1 h2 h3 h4 h5]
    simp [uploadPhase, h6, h7, h8, hmiss, rigSelTrace]
  · rw [rigBody_upload w u steps db1 p h1 h2 h3 h4 h5]
    simp [uploadPhase, h6, h7, h8, strTruthy, hpu, hpu2, rigSelTrace]
  · rw [animateBody_upload w' u' steps' db2 af p' g1 g2 g3 gaf gaf2 g4 g5]
    simp [uploadPhase, g6, g7, g8, hmiss', animSelTrace]
  · rw [animateBody_upload w' u' steps' db2 af p' g1 g2 g3 gaf gaf2 g4 g5]
    simp [uploadPhase, g6, g7, g8, strTruthy, hpu', hpu2', animSelTrace]

/-- An upload backend that replies 200 but without a `persistentUrl` field. -/
def noUrlBackendWorld : World :=
  { baseWorld with upload := fun _ => .ok { status_code := 200, text := "", json := .ok { persistentUrl := none } } }

/-- `fbxOnlyWorld` with an upload backend that replies 200 but without a
`persistentUrl` field: the request reaches the upload through the native
fallback. -/
def fbxOnlyNoUrlBackendWorld : World :=
  { fbxOnlyWorld with upload := fun _ => .ok { status_code := 200, text := "", json := .ok { persistentUrl := none } } }

/-- Witness for C6: a 200 response with no `persistentUrl` yields the error
payload both with the preview path selected (`noUrlBackendWorld`, rig) and
through the native fallback (`fbxOnlyNoUrlBackendWorld`, animate); a 200
response carrying one yields the success payload (`baseWorld`). -/
theorem upload_persistent_url_handling_witness :
    rig_from_url_api noUrlBackendWorld =
      (.error "No persistent URL returned from Render.com",
        { rigSelTrace noUrlBackendWorld "http://h/m.fbx" with uploads := ["/out/v.glb"] }) ∧
    animate_from_url_api fbxOnlyNoUrlBackendWorld =
      (.error "No persistent URL returned from Render.com",
        { animSelTrace fbxOnlyNoUrlBackendWorld "http://h/m.fbx" "/anim/run.fbx" with uploads := ["/out/a.fbx"] }) ∧
    rig_from_url_api baseWorld =
      (.done "https://cdn/p.glb", { rigSelTrace baseWorld "http://h/m.fbx" with uploads := ["/out/v.glb"] }) ∧
    animate_from_url_api baseWorld =
      (.done "https://cdn/p.glb", { animSelTrace baseWorld "http://h/m.fbx" "/anim/run.fbx" with uploads := ["/out/v.glb"] }) := by
  have hmiss := upload_persistent_url_handling noUrlBackendWorld fbxOnlyNoUrlBackendWorld
    "http://h/m.fbx" "http://h/m.fbx" [7] []
    { anim_vis_path := some "/out/v.glb", anim_path := some "/out/a.fbx" }
    { anim_vis_path := none, anim_path := some "/out/a.fbx" }
    "/out/v.glb" "/out/a.fbx" "/anim/run.fbx"
    { status_code := 200, text := "", json := .ok { persistentUrl := none } }
    { status_code := 200, text := "", json := .ok { persistentUrl := none } }
    { persistentUrl := none } { persistentUrl := none }
    (by rfl) (by decide) (by rfl) (by rfl) (by decide) (by rfl) (by rfl) (by rfl)
    (by rfl) (by decide) (by rfl) (by decide) (by decide) (by rfl)
    (by decide) (by rfl) (by rfl) (by rfl)
  have hok := upload_persistent_url_handling baseWorld baseWorld
    "http://h/m.fbx" "http://h/m.fbx" [7] [7]
    { anim_vis_path := some "/out/v.glb", anim_path := some "/out/a.fbx" }
    { anim_vis_path := some "/out/v.glb", anim_path := some "/out/a.fbx" }
    "/out/v.glb" "/out/v.glb" "/anim/run.fbx"
    { status_code := 200, text := "", json := .ok { persistentUrl := some "https://cdn/p.glb" } }
    { status_code := 200, text := "", json := .ok { persistentUrl := some "https://cdn/p.glb" } }
    { persistentUrl := some "https://cdn/p.glb" } { persistentUrl := some "https://cdn/p.glb" }
    (by rfl) (by decide) (by rfl) (by rfl) (by decide) (by rfl) (by rfl) (by rfl)
    (by rfl) (by decide) (by rfl) (by decide) (by decide) (by rfl)
    (by decide) (by rfl) (by rfl) (by rfl)
  exact ⟨hmiss.1 (by decide), hmiss.2.2.1 (by decide),
    hok.2.1 "https://cdn/p.glb" (by rfl) (by decide),
    hok.2.2.2 "https://cdn/p.glb" (by rfl) (by decide)⟩
/-- The upload phase never touches the pipeline-call trace. -/
theorem uploadPhase_pipelineCalls (w : World) (path : String) (t : Trace) :
    (uploadPhase w path t).2.pipelineCalls = t.pipelineCalls := by
  rw [uploadPhase_trace]

/-- Every pipeline invocation the rig handler makes passes the freshly
constructed record. -/
theorem rigBody_freshDB (w : World) :
    (rigBody w).2.pipelineCalls = [] ∨
    ∃ args, (rigBody w).2.pipelineCalls = [(args, ({} : DB))] := by
  rcases hj : w.jsonBody with e | data
  · left; simp [rigBody, hj]
  · by_cases hu : jsonTruthy data.url = true
    · rcases hd : w.download (jsonStr data.url) with e | uu
      · left; simp [rigBody, hj, hu, hd]
      · rcases hp : w.pipeline
            (rigPipelineArgs (localFilename w (jsonStr data.url)) (jsonStr data.url)) {}
            with e | sd
        · right
          exact ⟨rigPipelineArgs (localFilename w (jsonStr data.url)) (jsonStr data.url),
            by simp [rigBody, hj, hu, hd, hp]⟩
        · obtain ⟨s, dbv⟩ := sd
          right
          refine ⟨rigPipelineArgs (localFilename w (jsonStr data.url)) (jsonStr data.url), ?_⟩
          simp only [rigBody, hj, hu, Bool.not_true, Bool.false_eq_true, if_false, hd, hp]
          split
          · rw [uploadPhase_pipelineCalls]
          · split
            · rw [uploadPhase_pipelineCalls]
            · rfl
    · left
      simp only [Bool.not_eq_true] at hu
      simp [rigBody, hj, hu]

/-- Every pipeline invocation the animate handler makes passes the freshly
constructed record. -/
theorem animateBody_freshDB (w : World) :
    (animateBody w).2.pipelineCalls = [] ∨
    ∃ args, (animateBody w).2.pipelineCalls = [(args, ({} : DB))] := by
  rcases hj : w.jsonBody with e | data
  · left; simp [animateBody, hj]
  · by_cases hu : jsonTruthy data.url = true
    · rcases hd : w.download (jsonStr data.url) with e | uu
      · left; simp [animateBody, hj, hu, hd]
      · by_cases haf : w.isfile (if w.isfile w.animationFilePrimary then
            w.animationFilePrimary else w.animationFileFallback) = true
        · rcases hp : w.pipeline
              (animatePipelineArgs (localFilename w (jsonStr data.url)) (jsonStr data.url)
                (if w.isfile w.animationFilePrimary then w.animationFilePrimary
                  else w.animationFileFallback)) {}
              with e | sd
          · right
            exact ⟨animatePipelineArgs (localFilename w (jsonStr data.url)) (jsonStr data.url)
              (if w.isfile w.animationFilePrimary then w.animationFilePrimary
                else w.animationFileFallback),
              by simp [animateBody, hj, hu, hd, haf, hp]⟩
          · obtain ⟨s, dbv⟩ := sd
            right
            refine ⟨animatePipelineArgs (localFilename w (jsonStr data.url)) (jsonStr data.url)
              (if w.isfile w.animationFilePrimary then w.animationFilePrimary
                else w.animationFileFallback), ?_⟩
            simp only [animateBody, hj, hu, Bool.not_true, Bool.false_eq_true, if_false,
              hd, haf, hp]
            split
            · rw [uploadPhase_pipelineCalls]
            · split
              · rw [uploadPhase_pipelineCalls]
              · rfl
        · left
          simp only [Bool.not_eq_true] at haf
          simp [animateBody, hj, hu, hd, haf]
    · left
      simp only [Bool.not_eq_true] at hu
      simp [animateBody, hj, hu]
/-- Replacing the pipeline oracle leaves the local-filename computation
unchanged (it only reads `tmpdir`). -/
theorem localFilename_pipeline_update (w : World)
    (p2 : PipelineArgs → DB → Except String (List Nat × DB)) (u : String) :
    localFilename { w with pipeline := p2 } u = localFilename w u := rfl

/-- Replacing the pipeline oracle leaves the upload phase unchanged (it only
reads `upload`). -/
theorem uploadPhase_pipeline_update (w : World)
    (p2 : PipelineArgs → DB → Except String (List Nat × DB)) (path : String)
    (t : Trace) :
    uploadPhase { w with pipeline := p2 } path t = uploadPhase w path t := rfl

/-- The rig body depends on the pipeline oracle only through the final
record (and whether the drain raises): replacing it by any oracle with the
same record-and-error behaviour, but arbitrary intermediate step values,
changes nothing. -/
theorem rigBody_steps_irrelevant (w : World)
    (p2 : PipelineArgs → DB → Except String (List Nat × DB))
    (h : ∀ a d, Except.map Prod.snd (w.pipeline a d) = Except.map Prod.snd (p2 a d)) :
    rigBody { w with pipeline := p2 } = rigBody w := by
  rcases hj : w.jsonBody with e | data
  · simp [rigBody, hj]
  · by_cases hu : jsonTruthy data.url = true
    · rcases hd : w.download (jsonStr data.url) with e | uu
      · simp [rigBody, hj, hu, hd]
      · have hh := h (rigPipelineArgs (localFilename w (jsonStr data.url)) (jsonStr data.url)) {}
        rcases hp : w.pipeline
            (rigPipelineArgs (localFilename w (jsonStr data.url)) (jsonStr data.url)) {}
            with e | sd <;>
          rcases hp2 : p2
              (rigPipelineArgs (localFilename w (jsonStr data.url)) (jsonStr data.url)) {}
              with e2 | sd2 <;>
          rw [hp, hp2] at hh <;> simp only [Except.map] at hh
        · injection hh with he
          subst he
          simp only [localFilename, joinPath] at hp hp2
          simp [rigBody, hj, hu, hd, localFilename, joinPath, hp, hp2]
        · exact Except.noConfusion hh
        · exact Except.noConfusion hh
        · obtain ⟨s, dbv⟩ := sd
          obtain ⟨s2, dbv2⟩ := sd2
          injection hh with he
          obtain rfl : dbv = dbv2 := he
          simp only [localFilename, joinPath] at hp hp2
          simp [rigBody, hj, hu, hd, localFilename, joinPath, uploadPhase, hp, hp2]
    · have hu2 : jsonTruthy data.url = false := by simpa using hu
      simp [rigBody, hj, hu2]

/-- The animate body likewise depends on the pipeline oracle only through
the final record. -/
theorem animateBody_steps_irrelevant (w : World)
    (p2 : PipelineArgs → DB → Except String (List Nat × DB))
    (h : ∀ a d, Except.map Prod.snd (w.pipeline a d) = Except.map Prod.snd (p2 a d)) :
    animateBody { w with pipeline := p2 } = animateBody w := by
  rcases hj : w.jsonBody with e | data
  · simp [animateBody, hj]
  · by_cases hu : jsonTruthy data.url = true
    · rcases hd : w.download (jsonStr data.url) with e | uu
      · simp [animateBody, hj, hu, hd]
      · by_cases haf : w.isfile (if w.isfile w.animationFilePrimary then
            w.animationFilePrimary else w.animationFileFallback) = true
        · have hh := h (animatePipelineArgs (localFilename w (jsonStr data.url))
            (jsonStr data.url)
            (if w.isfile w.animationFilePrimary then w.animationFilePrimary
              else w.animationFileFallback)) {}
          rcases hp : w.pipeline
              (animatePipelineArgs (localFilename w (jsonStr data.url)) (jsonStr data.url)
                (if w.isfile w.animationFilePrimary then w.animationFilePrimary
                  else w.animationFileFallback)) {}
              with e | sd <;>
            rcases hp2 : p2
                (animatePipelineArgs (localFilename w (jsonStr data.url)) (jsonStr data.url)
                  (if w.isfile w.animationFilePrimary then w.animationFilePrimary
                    else w.animationFileFallback)) {}
                with e2 | sd2 <;>
            rw [hp, hp2] at hh <;> simp only [Except.map] at hh
          · injection hh with he
            subst he
            simp only [localFilename, joinPath] at hp hp2
            simp [animateBody, hj, hu, hd, haf, localFilename, joinPath, hp, hp2]
          · exact Except.noConfusion hh
          · exact Except.noConfusion hh
          · obtain ⟨s, dbv⟩ := sd
            obtain ⟨s2, dbv2⟩ := sd2
            injection hh with he
            obtain rfl : dbv = dbv2 := he
            simp only [localFilename, joinPath] at hp hp2
            simp [animateBody, hj, hu, hd, haf, localFilename, joinPath, uploadPhase, hp, hp2]
        · have haf2 : w.isfile (if w.isfile w.animationFilePrimary then
              w.animationFilePrimary else w.animationFileFallback) = false := by
            simpa using haf
          simp [animateBody, hj, hu, hd, haf2]
    · have hu2 : jsonTruthy data.url = false := by simpa using hu
      simp [animateBody, hj, hu2]

/-- C8: (i) the two handlers pass the injected transformation identically
named configuration arguments that differ only in `animation_file` (`None`
on the rig endpoint, the local reference-animation file on the animate
endpoint); (ii) every pipeline invocation either handler makes receives a
freshly constructed result record; (iii) the returned sequence of steps is
fully drained with every intermediate value discarded: replacing the
pipeline by one returning any other step values (same final record, same
raising behaviour) changes neither handler's outcome. -/
theorem pipeline_invocation_shape :
    (∀ l m a, animatePipelineArgs l m a =
        { rigPipelineArgs l m with animation_file := some a } ∧
      (rigPipelineArgs l m).animation_file = none) ∧
    (∀ w c, c ∈ (rig_from_url_api w).2.pipelineCalls → c.2 = ({} : DB)) ∧
    (∀ w c, c ∈ (animate_from_url_api w).2.pipelineCalls → c.2 = ({} : DB)) ∧
    (∀ w p2, (∀ a d, Except.map Prod.snd (w.pipeline a d) =
        Except.map Prod.snd (p2 a d)) →
      rig_from_url_api { w with pipeline := p2 } = rig_from_url_api w ∧
      animate_from_url_api { w with pipeline := p2 } = animate_from_url_api w) := by
  refine ⟨fun l m a => ⟨rfl, rfl⟩, ?_, ?_, ?_⟩
  · intro w c hc
    rw [rig_trace_eq] at hc
    rcases rigBody_freshDB w with hnil | ⟨args, hone⟩
    · rw [hnil] at hc
      exact absurd hc (List.not_mem_nil c)
    · rw [hone] at hc
      rw [List.mem_singleton.mp hc]
  · intro w c hc
    rw [animate_trace_eq] at hc
    rcases animateBody_freshDB w with hnil | ⟨args, hone⟩
    · rw [hnil] at hc
      exact absurd hc (List.not_mem_nil c)
    · rw [hone] at hc
      rw [List.mem_singleton.mp hc]
  · intro w p2 h
    constructor
    · unfold rig_from_url_api
      rw [rigBody_steps_irrelevant w p2 h]
    · unfold animate_from_url_api
      rw [animateBody_steps_irrelevant w p2 h]

/-- Witness for C8: the argument identity at concrete paths, and both
handlers' indifference to a pipeline that yields an extra intermediate step
value in `baseWorld`. -/
theorem pipeline_invocation_shape_witness :
    animatePipelineArgs "/tmp/m.fbx" "http://h/m.fbx" "/anim/run.fbx" =
      { rigPipelineArgs "/tmp/m.fbx" "http://h/m.fbx" with animation_file := some "/anim/run.fbx" } ∧
    rig_from_url_api { baseWorld with pipeline := fun a d => Except.map (fun r => (0 :: r.1, r.2)) (baseWorld.pipeline a d) } =
      rig_from_url_api baseWorld ∧
    animate_from_url_api { baseWorld with pipeline := fun a d => Except.map (fun r => (0 :: r.1, r.2)) (baseWorld.pipeline a d) } =
      animate_from_url_api baseWorld :=
  ⟨(pipeline_invocation_shape.1 "/tmp/m.fbx" "http://h/m.fbx" "/anim/run.fbx").1,
   (pipeline_invocation_shape.2.2.2 baseWorld _ (fun a d => rfl)).1,
   (pipeline_invocation_shape.2.2.2 baseWorld _ (fun a d => rfl)).2⟩
